import Mathlib

/-!
Shallow embedding of `tools/qingping_sensor_server.py` (QingPing Sensor Data
Server).  The Python program is a single-threaded HTTP server; the handlers
mutate one shared `SensorDataStore`.  We model the store as an immutable
record and each handler as a function from the store and the request to the
new store together with the response sent.  Wall-clock time
(`datetime.now()`) is modelled as a natural-number instant passed in
explicitly.  The Python standard-library JSON decoder (`json.loads`) is not
code of this repository; a request therefore carries the *outcome* of
decoding its body: a parsed JSON value, a `json.JSONDecodeError`, or any
other exception (for example a `UnicodeDecodeError` from `bytes.decode`).
A successfully decoded body that is valid JSON but not an object is
handled faithfully to line 332 of the source: the reading is stored and
`total_received` bumped, then `data.get('mac', 'unknown')` raises
`AttributeError`, so the handler also increments `error_count` and
answers 500 instead of 200.
-/

/-- Parsed JSON values, the result type of `json.loads`. -/
inductive Json where
  | null : Json
  | bool (b : Bool) : Json
  | num (n : Int) : Json
  | str (s : String) : Json
  | arr (elems : List Json) : Json
  | obj (fields : List (String × Json)) : Json

/-- The metadata dict built inside `SensorDataStore.add_reading`
(lines 36-43 of the source). -/
structure Metadata where
  source_ip : String
  destination_ip : String
  destination_port : String
  protocol : String
  timestamp : String
  mqtt_topic : String
  deriving DecidableEq

/-- The value stored in `self.latest_data` (lines 34-44): the raw parsed
payload together with the extracted metadata. -/
structure LatestData where
  sensor_data : Json
  metadata : Metadata

/-- The mutable state of `SensorDataStore` (lines 26-30). -/
structure SensorDataStore where
  latest_data : Option LatestData
  last_updated : Option Nat
  total_received : Nat
  error_count : Nat

/-- `SensorDataStore.__init__` (lines 26-30): empty store. -/
def initStore : SensorDataStore :=
  { latest_data := none
    last_updated := none
    total_received := 0
    error_count := 0 }

/-- Python `dict.get(key, default)` on an association list of headers.
The first pair whose key matches is returned, otherwise the default. -/
def headersGet (hs : List (String × String)) (key dflt : String) : String :=
  match hs.find? (fun p => p.fst == key) with
  | some p => p.snd
  | none => dflt

/-- Python `dict.get(key)` returning `None` when the key is absent. -/
def lookupHeader (hs : List (String × String)) (key : String) : Option String :=
  (hs.find? (fun p => p.fst == key)).map (fun p => p.snd)

/-- `SensorDataStore.add_reading` (lines 32-46): replace the latest reading
wholesale, stamp `last_updated` with the current time, bump
`total_received`. -/
def SensorDataStore.add_reading (s : SensorDataStore) (data : Json)
    (headers : List (String × String)) (now : Nat) : SensorDataStore :=
  { latest_data := some
      { sensor_data := data
        metadata :=
          { source_ip := headersGet headers "X-Source-IP" "unknown"
            destination_ip := headersGet headers "X-Destination-IP" "unknown"
            destination_port := headersGet headers "X-Destination-Port" "unknown"
            protocol := headersGet headers "X-Protocol" "unknown"
            timestamp := headersGet headers "X-Timestamp" "unknown"
            mqtt_topic := headersGet headers "X-MQTT-Topic" "N/A" } }
    last_updated := some now
    total_received := s.total_received + 1
    error_count := s.error_count }

/-- `SensorDataStore.increment_errors` (lines 48-50). -/
def SensorDataStore.increment_errors (s : SensorDataStore) : SensorDataStore :=
  { s with error_count := s.error_count + 1 }

/-- `SensorDataStore._get_no_data_html` (lines 59-106).  The static HTML
template text is condensed; the dynamic interpolations (`total_received`,
`error_count`, the refresh instant) are kept. -/
def SensorDataStore.get_no_data_html (s : SensorDataStore) (now : Nat) : String :=
  "<html>QingPing Sensor Monitor | Waiting for sensor data... | Total Received: "
    ++ toString s.total_received
    ++ " | Errors: " ++ toString s.error_count
    ++ " | Last refresh: " ++ toString now ++ "</html>"

/-- `SensorDataStore._get_data_html` (lines 108-235), condensed the same
way: the dynamic interpolations (counters, `last_updated`, the six metadata
fields) are kept. -/
def SensorDataStore.get_data_html (s : SensorDataStore) (now : Nat) : String :=
  match s.latest_data with
  | none => ""
  | some ld =>
      "<html>QingPing Sensor Monitor | Receiving data | Last updated: "
        ++ toString (s.last_updated.getD now)
        ++ " | Total Received: " ++ toString s.total_received
        ++ " | Errors: " ++ toString s.error_count
        ++ " | Source IP: " ++ ld.metadata.source_ip
        ++ " | Destination IP: " ++ ld.metadata.destination_ip
        ++ " | Destination Port: " ++ ld.metadata.destination_port
        ++ " | Protocol: " ++ ld.metadata.protocol
        ++ " | MQTT Topic: " ++ ld.metadata.mqtt_topic
        ++ " | Timestamp: " ++ ld.metadata.timestamp ++ "</html>"

/-- `SensorDataStore.get_html_display` (lines 52-57): `self.latest_data`
is either `None` or a non-empty dict, so Python truthiness here is
`isSome`. -/
def SensorDataStore.get_html_display (s : SensorDataStore) (now : Nat) : String :=
  match s.latest_data with
  | none => s.get_no_data_html now
  | some _ => s.get_data_html now

/-- Outcome of `post_data.decode` followed by `json.loads` in `do_POST`
(lines 315-316): a value, a `json.JSONDecodeError`, or any other
exception. -/
inductive ParseOutcome where
  | ok (data : Json) : ParseOutcome
  | jsonError (msg : String) : ParseOutcome
  | otherError (msg : String) : ParseOutcome

/-- An incoming HTTP request, as seen by the handler: the path, the header
list, the parsed `Content-Length` header (`none` when absent), and the
body-decoding outcome.  A `Content-Length` value that is not a numeral is
outside this model: on such a request, `int(...)` at line 306 raises an
uncaught `ValueError` *before* the `try` block, the surrounding
`socketserver` machinery drops the request, and the store is never
touched, so no modelled request corresponds to it. -/
structure Request where
  path : String
  headers : List (String × String)
  contentLength : Option Nat
  body : ParseOutcome

/-- The stats dict assembled in `do_GET` for `/stats` (lines 292-297). -/
structure Stats where
  total_received : Nat
  error_count : Nat
  last_updated : Option Nat
  has_data : Bool
  deriving DecidableEq

/-- Responses `do_GET` can send: the HTML dashboard (200, `text/html`),
the stats JSON (200, `application/json`), or `send_error(404)`. -/
inductive GetResponse where
  | html (body : String) : GetResponse
  | statsJson (stats : Stats) : GetResponse
  | notFound : GetResponse
  deriving DecidableEq

/-- Responses `do_POST` can send: the 200 success JSON (whose
`received_at` is the current instant), `send_error(400, msg)`,
`send_error(500, msg)`, or `send_error(404)`. -/
inductive PostResponse where
  | success (receivedAt : Nat) : PostResponse
  | badRequest (msg : String) : PostResponse
  | serverError (msg : String) : PostResponse
  | notFound : PostResponse
  deriving DecidableEq

/-- The stats dict of lines 292-297 as a function of the store. -/
def statsOf (s : SensorDataStore) : Stats :=
  { total_received := s.total_received
    error_count := s.error_count
    last_updated := s.last_updated
    has_data := s.latest_data.isSome }

/-- `SensorHTTPRequestHandler.do_GET` (lines 277-301). -/
def do_GET (s : SensorDataStore) (path : String) (now : Nat) :
    SensorDataStore × GetResponse :=
  if path = "/" ∨ path = "/index.html" then
    (s, GetResponse.html (s.get_html_display now))
  else if path = "/stats" then
    (s, GetResponse.statsJson (statsOf s))
  else
    (s, GetResponse.notFound)

/-- The header dict extracted in `do_POST` (lines 319-326): every one of
the six X- forwarding headers, defaulted to the empty string. -/
def extractHeaders (req : Request) : List (String × String) :=
  [("X-Source-IP", headersGet req.headers "X-Source-IP" ""),
   ("X-Destination-IP", headersGet req.headers "X-Destination-IP" ""),
   ("X-Destination-Port", headersGet req.headers "X-Destination-Port" ""),
   ("X-Protocol", headersGet req.headers "X-Protocol" ""),
   ("X-Timestamp", headersGet req.headers "X-Timestamp" ""),
   ("X-MQTT-Topic", headersGet req.headers "X-MQTT-Topic" "")]

/-- Whether the parsed JSON value is a Python dict.  Line 332 of the
source runs `data.get('mac', 'unknown')` after the reading has been
stored; `.get` exists only on dicts, so this succeeds exactly when the
decoded value is a JSON object and raises `AttributeError` on every other
valid JSON value (list, string, number, bool, null). -/
def Json.isObj : Json → Bool
  | Json.obj _ => true
  | _ => false

/-- The Python type name of a decoded JSON value, as it appears in the
`AttributeError` message raised by line 332 on non-dict values. -/
def Json.pyTypeName : Json → String
  | Json.null => "NoneType"
  | Json.bool _ => "bool"
  | Json.num _ => "int"
  | Json.str _ => "str"
  | Json.arr _ => "list"
  | Json.obj _ => "dict"

/-- The message of the `AttributeError` raised by `data.get` on a
non-dict value (quotation marks of the Python message elided). -/
def attributeErrorMsg (data : Json) : String :=
  data.pyTypeName ++ " object has no attribute get"

/-- `SensorHTTPRequestHandler.do_POST` (lines 303-358).  On a parsed body
the reading is stored first (line 329); line 332 then evaluates
`data.get('mac', 'unknown')`, which raises `AttributeError` when the
decoded value is not a dict: the generic `except Exception` handler
(lines 352-355) then sends 500 and increments the error counter, after
`total_received` was already bumped and the reading replaced. -/
def do_POST (s : SensorDataStore) (req : Request) (now : Nat) :
    SensorDataStore × PostResponse :=
  if req.path = "/" ∨ req.path = "/sensor-data" then
    let content_length := req.contentLength.getD 0
    if content_length = 0 then
      (s.increment_errors, PostResponse.badRequest "Empty request body")
    else
      match req.body with
      | ParseOutcome.ok data =>
          let stored := s.add_reading data (extractHeaders req) now
          if data.isObj then
            (stored, PostResponse.success now)
          else
            (stored.increment_errors,
              PostResponse.serverError ("Internal server error: " ++ attributeErrorMsg data))
      | ParseOutcome.jsonError e =>
          (s.increment_errors, PostResponse.badRequest ("Invalid JSON: " ++ e))
      | ParseOutcome.otherError e =>
          (s.increment_errors, PostResponse.serverError ("Internal server error: " ++ e))
  else
    (s, PostResponse.notFound)

/-- Whether `req.body` is a successfully parsed JSON value. -/
def bodyOk : ParseOutcome → Bool
  | ParseOutcome.ok _ => true
  | _ => false

/-- A POST request that `do_POST` accepts (stores a reading): data route,
non-zero content length, body parses as JSON. -/
def isAccepted (req : Request) : Bool :=
  decide (req.path = "/" ∨ req.path = "/sensor-data") &&
  decide (req.contentLength.getD 0 ≠ 0) && bodyOk req.body

/-- A body that decodes to valid non-object JSON: the reading is stored,
then line 332 raises `AttributeError` and the request is counted as an
error. -/
def bodyNonObj : ParseOutcome → Bool
  | ParseOutcome.ok d => !d.isObj
  | _ => false

/-- A POST request whose handling increments `error_count`: data route,
but empty body, failed parse, or a handler exception (a decode exception,
or the post-store `AttributeError` on valid non-object JSON). -/
def isFailed (req : Request) : Bool :=
  decide (req.path = "/" ∨ req.path = "/sensor-data") &&
  (decide (req.contentLength.getD 0 = 0) || !bodyOk req.body || bodyNonObj req.body)

/-- Handle a sequence of POST requests, each at its own instant, one after
the other, starting from store `s`. -/
def processPosts (s : SensorDataStore) : List (Request × Nat) → SensorDataStore
  | [] => s
  | rn :: rest => processPosts (do_POST s rn.fst rn.snd).fst rest

/-- The store invariant of claim C9: `latest_data` and `last_updated` are
`None` together, and they are `None` exactly when no reading has ever been
received. -/
def StoreInv (s : SensorDataStore) : Prop :=
  s.latest_data.isNone = s.last_updated.isNone ∧
  (s.latest_data.isNone = true ↔ s.total_received = 0)

instance (s : SensorDataStore) : Decidable (StoreInv s) := by
  unfold StoreInv; infer_instance

/-! ### Helper lemmas about single-request effects -/

theorem do_POST_fst_total_received (s : SensorDataStore) (req : Request) (now : Nat) :
    (do_POST s req now).fst.total_received =
      s.total_received + (if isAccepted req then 1 else 0) := by
  by_cases hroute : req.path = "/" ∨ req.path = "/sensor-data"
  · by_cases hcl : req.contentLength.getD 0 = 0
    · simp [do_POST, isAccepted, hroute, hcl, SensorDataStore.increment_errors]
    · cases hb : req.body with
      | ok d =>
          cases ho : d.isObj <;>
            simp [do_POST, isAccepted, bodyOk, hroute, hcl, hb, ho,
              SensorDataStore.add_reading, SensorDataStore.increment_errors]
      | jsonError e =>
          simp [do_POST, isAccepted, bodyOk, hroute, hcl, hb,
            SensorDataStore.increment_errors]
      | otherError e =>
          simp [do_POST, isAccepted, bodyOk, hroute, hcl, hb,
            SensorDataStore.increment_errors]
  · simp [do_POST, isAccepted, hroute]

theorem do_POST_fst_error_count (s : SensorDataStore) (req : Request) (now : Nat) :
    (do_POST s req now).fst.error_count =
      s.error_count + (if isFailed req then 1 else 0) := by
  by_cases hroute : req.path = "/" ∨ req.path = "/sensor-data"
  · by_cases hcl : req.contentLength.getD 0 = 0
    · simp [do_POST, isFailed, hroute, hcl, SensorDataStore.increment_errors]
    · cases hb : req.body with
      | ok d =>
          cases ho : d.isObj <;>
            simp [do_POST, isFailed, bodyOk, bodyNonObj, hroute, hcl, hb, ho,
              SensorDataStore.add_reading, SensorDataStore.increment_errors]
      | jsonError e =>
          simp [do_POST, isFailed, bodyOk, bodyNonObj, hroute, hcl, hb,
            SensorDataStore.increment_errors]
      | otherError e =>
          simp [do_POST, isFailed, bodyOk, bodyNonObj, hroute, hcl, hb,
            SensorDataStore.increment_errors]
  · simp [do_POST, isFailed, hroute]

theorem processPosts_total_received (reqs : List (Request × Nat)) (s : SensorDataStore) :
    (processPosts s reqs).total_received =
      s.total_received + reqs.countP (fun rn => isAccepted rn.fst) := by
  induction reqs generalizing s with
  | nil => simp [processPosts]
  | cons hd tl ih =>
      rw [processPosts, ih, do_POST_fst_total_received, List.countP_cons]
      by_cases h : isAccepted hd.fst
      · simp [h]
        omega
      · simp [h]

theorem processPosts_error_count (reqs : List (Request × Nat)) (s : SensorDataStore) :
    (processPosts s reqs).error_count =
      s.error_count + reqs.countP (fun rn => isFailed rn.fst) := by
  induction reqs generalizing s with
  | nil => simp [processPosts]
  | cons hd tl ih =>
      rw [processPosts, ih, do_POST_fst_error_count, List.countP_cons]
      by_cases h : isFailed hd.fst
      · simp [h]
        omega
      · simp [h]


/-! ### Claim theorems -/

/-- C1: For every POST to the data endpoint whose body is valid JSON,
handling the request increments `total_received` by exactly 1 and sets
`last_updated` to the instant the reading was added. -/
theorem spec_C1_valid_post_counts_and_timestamps
    (s : SensorDataStore) (req : Request) (now : Nat)
    (hroute : req.path = "/" ∨ req.path = "/sensor-data")
    (hcl : req.contentLength.getD 0 ≠ 0)
    (hjson : ∃ d, req.body = ParseOutcome.ok d) :
    (do_POST s req now).fst.total_received = s.total_received + 1 ∧
    (do_POST s req now).fst.last_updated = some now := by
  obtain ⟨d, hd⟩ := hjson
  cases ho : d.isObj <;>
    simp [do_POST, hroute, hcl, hd, ho, SensorDataStore.add_reading,
      SensorDataStore.increment_errors]

/-- Witness for C1 at a concrete request and store. -/
theorem spec_C1_witness :
    (do_POST initStore
      { path := "/sensor-data", headers := [], contentLength := some 2,
        body := ParseOutcome.ok (Json.obj []) } 7).fst.total_received =
      initStore.total_received + 1 ∧
    (do_POST initStore
      { path := "/sensor-data", headers := [], contentLength := some 2,
        body := ParseOutcome.ok (Json.obj []) } 7).fst.last_updated = some 7 :=
  spec_C1_valid_post_counts_and_timestamps initStore
    { path := "/sensor-data", headers := [], contentLength := some 2,
      body := ParseOutcome.ok (Json.obj []) } 7
    (Or.inr rfl) (by decide) ⟨Json.obj [], rfl⟩

/-- C2: For every POST to the data endpoint whose non-empty body fails JSON
decoding, handling the request increments only `error_count`
(`total_received` unchanged), leaves the stored reading and `last_updated`
exactly as they were, and answers with a 400 error. -/
theorem spec_C2_malformed_json_only_errors
    (s : SensorDataStore) (req : Request) (now : Nat)
    (hroute : req.path = "/" ∨ req.path = "/sensor-data")
    (hcl : req.contentLength.getD 0 ≠ 0)
    (hbad : ∃ e, req.body = ParseOutcome.jsonError e) :
    (do_POST s req now).fst.error_count = s.error_count + 1 ∧
    (do_POST s req now).fst.total_received = s.total_received ∧
    (do_POST s req now).fst.latest_data = s.latest_data ∧
    (do_POST s req now).fst.last_updated = s.last_updated ∧
    ∃ m, (do_POST s req now).snd = PostResponse.badRequest m := by
  obtain ⟨e, he⟩ := hbad
  simp [do_POST, hroute, hcl, he, SensorDataStore.increment_errors]

/-- Witness for C2 at a concrete request and store. -/
theorem spec_C2_witness :
    (do_POST initStore
      { path := "/", headers := [], contentLength := some 3,
        body := ParseOutcome.jsonError "oops" } 4).fst.error_count =
      initStore.error_count + 1 ∧
    (do_POST initStore
      { path := "/", headers := [], contentLength := some 3,
        body := ParseOutcome.jsonError "oops" } 4).fst.total_received =
      initStore.total_received ∧
    (do_POST initStore
      { path := "/", headers := [], contentLength := some 3,
        body := ParseOutcome.jsonError "oops" } 4).fst.latest_data =
      initStore.latest_data ∧
    (do_POST initStore
      { path := "/", headers := [], contentLength := some 3,
        body := ParseOutcome.jsonError "oops" } 4).fst.last_updated =
      initStore.last_updated ∧
    ∃ m, (do_POST initStore
      { path := "/", headers := [], contentLength := some 3,
        body := ParseOutcome.jsonError "oops" } 4).snd =
        PostResponse.badRequest m :=
  spec_C2_malformed_json_only_errors initStore
    { path := "/", headers := [], contentLength := some 3,
      body := ParseOutcome.jsonError "oops" } 4
    (Or.inl rfl) (by decide) ⟨"oops", rfl⟩

/-- C7: Every GET request, whatever its path, leaves the entire store
unchanged. -/
theorem spec_C7_get_preserves_store
    (s : SensorDataStore) (path : String) (now : Nat) :
    (do_GET s path now).fst = s := by
  unfold do_GET
  split
  · rfl
  · split <;> rfl

/-- C8: For every POST to the data endpoint whose Content-Length header is
absent or 0, the handler answers 400 with message Empty request body,
increments `error_count` by 1, and changes nothing else in the store; the
conclusion holds for every body, so the body is never consulted. -/
theorem spec_C8_empty_body_rejected
    (s : SensorDataStore) (req : Request) (now : Nat)
    (hroute : req.path = "/" ∨ req.path = "/sensor-data")
    (hcl : req.contentLength = none ∨ req.contentLength = some 0) :
    do_POST s req now =
      ({ s with error_count := s.error_count + 1 },
        PostResponse.badRequest "Empty request body") := by
  have hcl0 : req.contentLength.getD 0 = 0 := by
    rcases hcl with h | h <;> simp [h]
  simp [do_POST, hroute, hcl0, SensorDataStore.increment_errors]

/-- Witness for C8 at a concrete request and store. -/
theorem spec_C8_witness :
    do_POST initStore
      { path := "/sensor-data", headers := [("X-Source-IP", "1.2.3.4")],
        contentLength := none, body := ParseOutcome.ok Json.null } 9 =
      ({ initStore with error_count := initStore.error_count + 1 },
        PostResponse.badRequest "Empty request body") :=
  spec_C8_empty_body_rejected initStore
    { path := "/sensor-data", headers := [("X-Source-IP", "1.2.3.4")],
      contentLength := none, body := ParseOutcome.ok Json.null } 9
    (Or.inr rfl) (Or.inl rfl)

/-- C3: After any finite sequence of POST requests starting from the fresh
store, a GET on `/stats` answers with the stats JSON, whose
`total_received` is the number of accepted POSTs (those that stored a
reading) and whose `error_count` is the number of failed POSTs (empty
body, malformed JSON, or handler exception), each counted exactly once in
its counter.  A POST with a valid non-object JSON body stores a reading
and then raises at line 332, so it counts once in `total_received` and
once in `error_count`, exactly as the program does. -/
theorem spec_C3_stats_consistent_with_posts
    (reqs : List (Request × Nat)) (now : Nat) :
    (do_GET (processPosts initStore reqs) "/stats" now).snd =
      GetResponse.statsJson (statsOf (processPosts initStore reqs)) ∧
    (statsOf (processPosts initStore reqs)).total_received =
      reqs.countP (fun rn => isAccepted rn.fst) ∧
    (statsOf (processPosts initStore reqs)).error_count =
      reqs.countP (fun rn => isFailed rn.fst) := by
  refine ⟨by simp [do_GET], ?_, ?_⟩
  · simp [statsOf, processPosts_total_received, initStore]
  · simp [statsOf, processPosts_error_count, initStore]

/-- C4: For every successful POST (data route, non-empty body decoding to
a JSON object, so the handler answers 200), the latest reading stored
afterwards is built solely from the request: two stores that agree on
everything except their prior latest reading end up with the same latest
reading. -/
theorem spec_C4_reading_independent_of_prior
    (s1 s2 : SensorDataStore) (req : Request) (now : Nat)
    (_hlu : s1.last_updated = s2.last_updated)
    (_htr : s1.total_received = s2.total_received)
    (_hec : s1.error_count = s2.error_count)
    (hroute : req.path = "/" ∨ req.path = "/sensor-data")
    (hcl : req.contentLength.getD 0 ≠ 0)
    (hjson : ∃ fields, req.body = ParseOutcome.ok (Json.obj fields)) :
    (do_POST s1 req now).snd = PostResponse.success now ∧
    (do_POST s1 req now).fst.latest_data = (do_POST s2 req now).fst.latest_data := by
  obtain ⟨fields, hd⟩ := hjson
  simp [do_POST, hroute, hcl, hd, Json.isObj, SensorDataStore.add_reading]

/-- Witness for C4: the same accepted POST applied to the fresh store and
to a store that differs from it only in its latest reading. -/
theorem spec_C4_witness :
    (do_POST initStore
      { path := "/", headers := [("X-Protocol", "UDP")], contentLength := some 8,
        body := ParseOutcome.ok (Json.obj [("mac", Json.str "aa")]) } 3).snd =
      PostResponse.success 3 ∧
    (do_POST initStore
      { path := "/", headers := [("X-Protocol", "UDP")], contentLength := some 8,
        body := ParseOutcome.ok (Json.obj [("mac", Json.str "aa")]) } 3).fst.latest_data =
    (do_POST
      { latest_data := some
          { sensor_data := Json.null,
            metadata :=
              { source_ip := "a", destination_ip := "b", destination_port := "c",
                protocol := "d", timestamp := "e", mqtt_topic := "f" } },
        last_updated := none, total_received := 0, error_count := 0 }
      { path := "/", headers := [("X-Protocol", "UDP")], contentLength := some 8,
        body := ParseOutcome.ok (Json.obj [("mac", Json.str "aa")]) } 3).fst.latest_data :=
  spec_C4_reading_independent_of_prior initStore
    { latest_data := some
        { sensor_data := Json.null,
          metadata :=
            { source_ip := "a", destination_ip := "b", destination_port := "c",
              protocol := "d", timestamp := "e", mqtt_topic := "f" } },
      last_updated := none, total_received := 0, error_count := 0 }
    { path := "/", headers := [("X-Protocol", "UDP")], contentLength := some 8,
      body := ParseOutcome.ok (Json.obj [("mac", Json.str "aa")]) } 3
    rfl rfl rfl (Or.inl rfl) (by decide) ⟨[("mac", Json.str "aa")], rfl⟩

/-! ### Header lookup helpers -/

theorem headersGet_of_lookup (hs : List (String × String)) (k dflt v : String)
    (h : lookupHeader hs k = some v) : headersGet hs k dflt = v := by
  unfold lookupHeader at h
  unfold headersGet
  cases hf : hs.find? (fun p => p.fst == k) with
  | none => rw [hf] at h; simp at h
  | some p => rw [hf] at h; simp at h; simpa using h

theorem headersGet_of_lookup_none (hs : List (String × String)) (k dflt : String)
    (h : lookupHeader hs k = none) : headersGet hs k dflt = dflt := by
  unfold lookupHeader at h
  unfold headersGet
  cases hf : hs.find? (fun p => p.fst == k) with
  | none => rfl
  | some p => rw [hf] at h; simp at h

theorem do_GET_fst_eq (s : SensorDataStore) (path : String) (now : Nat) :
    (do_GET s path now).fst = s := by
  unfold do_GET
  split
  · rfl
  · split
    · rfl
    · rfl

/-- C5 counterexample: `/index.html` is none of the three routes the claim
enumerates, yet a GET on it is answered with the dashboard, not 404. -/
theorem spec_C5_counterexample :
    (do_GET initStore "/index.html" 0).snd ≠ GetResponse.notFound ∧
    "/index.html" ≠ "/" ∧ "/index.html" ≠ "/stats" ∧
    "/index.html" ≠ "/sensor-data" := by
  refine ⟨?_, by decide, by decide, by decide⟩
  intro h
  simp [do_GET] at h

/-- C5 (amended): GET routes are `/`, `/index.html` and `/stats`; POST
routes are `/` and `/sensor-data`; any other path is answered 404 Not
Found with the store unchanged. -/
theorem spec_C5_amended_routing :
    (∀ (s : SensorDataStore) (path : String) (now : Nat),
      path ≠ "/" → path ≠ "/index.html" → path ≠ "/stats" →
      do_GET s path now = (s, GetResponse.notFound)) ∧
    (∀ (s : SensorDataStore) (req : Request) (now : Nat),
      req.path ≠ "/" → req.path ≠ "/sensor-data" →
      do_POST s req now = (s, PostResponse.notFound)) := by
  constructor
  · intro s path now h1 h2 h3
    simp [do_GET, h1, h2, h3]
  · intro s req now h1 h2
    simp [do_POST, h1, h2]

/-- Witness for the amended C5: a GET and a POST on an unknown path. -/
theorem spec_C5_witness :
    do_GET initStore "/nope" 1 = (initStore, GetResponse.notFound) ∧
    do_POST initStore
      { path := "/nope", headers := [], contentLength := some 1,
        body := ParseOutcome.ok Json.null } 1 =
      (initStore, PostResponse.notFound) :=
  ⟨spec_C5_amended_routing.1 initStore "/nope" 1 (by decide) (by decide) (by decide),
   spec_C5_amended_routing.2 initStore
     { path := "/nope", headers := [], contentLength := some 1,
       body := ParseOutcome.ok Json.null } 1 (by decide) (by decide)⟩

/-- C6: For every POST that stores a reading (data route, non-empty body,
valid JSON) whose six X- forwarding headers are all present, the stored
latest reading is exactly the raw payload together with the six-field
metadata record, each field equal to the value of the corresponding
header of that request. -/
theorem spec_C6_metadata_equals_headers
    (s : SensorDataStore) (req : Request) (now : Nat) (d : Json)
    (v1 v2 v3 v4 v5 v6 : String)
    (hroute : req.path = "/" ∨ req.path = "/sensor-data")
    (hcl : req.contentLength.getD 0 ≠ 0)
    (hok : req.body = ParseOutcome.ok d)
    (h1 : lookupHeader req.headers "X-Source-IP" = some v1)
    (h2 : lookupHeader req.headers "X-Destination-IP" = some v2)
    (h3 : lookupHeader req.headers "X-Destination-Port" = some v3)
    (h4 : lookupHeader req.headers "X-Protocol" = some v4)
    (h5 : lookupHeader req.headers "X-Timestamp" = some v5)
    (h6 : lookupHeader req.headers "X-MQTT-Topic" = some v6) :
    (do_POST s req now).fst.latest_data = some
      { sensor_data := d
        metadata :=
          { source_ip := v1, destination_ip := v2, destination_port := v3,
            protocol := v4, timestamp := v5, mqtt_topic := v6 } } := by
  have hr : (do_POST s req now).fst.latest_data
      = (s.add_reading d (extractHeaders req) now).latest_data := by
    cases ho : d.isObj <;>
      simp [do_POST, hroute, hcl, hok, ho, SensorDataStore.increment_errors]
  have g1 : headersGet (extractHeaders req) "X-Source-IP" "unknown" = v1 := by
    have e : headersGet (extractHeaders req) "X-Source-IP" "unknown"
        = headersGet req.headers "X-Source-IP" "" := rfl
    rw [e]; exact headersGet_of_lookup _ _ _ _ h1
  have g2 : headersGet (extractHeaders req) "X-Destination-IP" "unknown" = v2 := by
    have e : headersGet (extractHeaders req) "X-Destination-IP" "unknown"
        = headersGet req.headers "X-Destination-IP" "" := rfl
    rw [e]; exact headersGet_of_lookup _ _ _ _ h2
  have g3 : headersGet (extractHeaders req) "X-Destination-Port" "unknown" = v3 := by
    have e : headersGet (extractHeaders req) "X-Destination-Port" "unknown"
        = headersGet req.headers "X-Destination-Port" "" := rfl
    rw [e]; exact headersGet_of_lookup _ _ _ _ h3
  have g4 : headersGet (extractHeaders req) "X-Protocol" "unknown" = v4 := by
    have e : headersGet (extractHeaders req) "X-Protocol" "unknown"
        = headersGet req.headers "X-Protocol" "" := rfl
    rw [e]; exact headersGet_of_lookup _ _ _ _ h4
  have g5 : headersGet (extractHeaders req) "X-Timestamp" "unknown" = v5 := by
    have e : headersGet (extractHeaders req) "X-Timestamp" "unknown"
        = headersGet req.headers "X-Timestamp" "" := rfl
    rw [e]; exact headersGet_of_lookup _ _ _ _ h5
  have g6 : headersGet (extractHeaders req) "X-MQTT-Topic" "N/A" = v6 := by
    have e : headersGet (extractHeaders req) "X-MQTT-Topic" "N/A"
        = headersGet req.headers "X-MQTT-Topic" "" := rfl
    rw [e]; exact headersGet_of_lookup _ _ _ _ h6
  rw [hr]
  unfold SensorDataStore.add_reading
  rw [g1, g2, g3, g4, g5, g6]

/-- Witness for C6 at a concrete request carrying all six headers. -/
theorem spec_C6_witness :
    (do_POST initStore
      { path := "/sensor-data",
        headers := [("X-Source-IP", "10.0.0.1"), ("X-Destination-IP", "10.0.0.2"),
                    ("X-Destination-Port", "1883"), ("X-Protocol", "UDP"),
                    ("X-Timestamp", "t0"), ("X-MQTT-Topic", "qp/up")],
        contentLength := some 5, body := ParseOutcome.ok Json.null } 6).fst.latest_data =
      some
        { sensor_data := Json.null
          metadata :=
            { source_ip := "10.0.0.1", destination_ip := "10.0.0.2",
              destination_port := "1883", protocol := "UDP",
              timestamp := "t0", mqtt_topic := "qp/up" } } :=
  spec_C6_metadata_equals_headers initStore
    { path := "/sensor-data",
      headers := [("X-Source-IP", "10.0.0.1"), ("X-Destination-IP", "10.0.0.2"),
                  ("X-Destination-Port", "1883"), ("X-Protocol", "UDP"),
                  ("X-Timestamp", "t0"), ("X-MQTT-Topic", "qp/up")],
      contentLength := some 5, body := ParseOutcome.ok Json.null } 6
    Json.null "10.0.0.1" "10.0.0.2" "1883" "UDP" "t0" "qp/up"
    (Or.inr rfl) (by decide) rfl rfl rfl rfl rfl rfl rfl

/-- C9: The invariant `latest_data` is `None` exactly when `last_updated`
is `None`, and both are `None` exactly when `total_received = 0`, holds of
the fresh store and is preserved by `add_reading`, `increment_errors` and
both handlers; under it, the `has_data` field of the stats JSON is true
exactly when `total_received > 0`. -/
theorem spec_C9_store_invariant :
    StoreInv initStore ∧
    (∀ (s : SensorDataStore) (d : Json) (hs : List (String × String)) (now : Nat),
      StoreInv s → StoreInv (s.add_reading d hs now)) ∧
    (∀ s : SensorDataStore, StoreInv s → StoreInv s.increment_errors) ∧
    (∀ (s : SensorDataStore) (path : String) (now : Nat),
      StoreInv s → StoreInv (do_GET s path now).fst) ∧
    (∀ (s : SensorDataStore) (req : Request) (now : Nat),
      StoreInv s → StoreInv (do_POST s req now).fst) ∧
    (∀ s : SensorDataStore, StoreInv s →
      ((statsOf s).has_data = true ↔ 0 < s.total_received)) := by
  refine ⟨by decide, ?_, ?_, ?_, ?_, ?_⟩
  · intro s d hs now _
    constructor <;> simp [SensorDataStore.add_reading, StoreInv]
  · intro s h
    simpa [SensorDataStore.increment_errors, StoreInv] using h
  · intro s path now h
    rw [do_GET_fst_eq]
    exact h
  · intro s req now h
    by_cases hroute : req.path = "/" ∨ req.path = "/sensor-data"
    · by_cases hcl : req.contentLength.getD 0 = 0
      · simp only [do_POST, hroute, hcl, if_true, if_pos]
        simpa [SensorDataStore.increment_errors, StoreInv] using h
      · cases hb : req.body with
        | ok d =>
            cases ho : d.isObj <;>
              simp [do_POST, hroute, hcl, hb, ho, SensorDataStore.add_reading,
                SensorDataStore.increment_errors, StoreInv]
        | jsonError e =>
            simp only [do_POST, hroute, hcl, hb]
            simpa [SensorDataStore.increment_errors, StoreInv] using h
        | otherError e =>
            simp only [do_POST, hroute, hcl, hb]
            simpa [SensorDataStore.increment_errors, StoreInv] using h
    · simpa [do_POST, hroute] using h
  · intro s h
    obtain ⟨h1, h2⟩ := h
    unfold statsOf
    cases hl : s.latest_data with
    | none =>
        rw [hl] at h2
        simp at h2
        simp [h2]
    | some ld =>
        rw [hl] at h2
        simp at h2
        simp
        omega

/-- Witness for C9: the invariant after a POST on the fresh store, and the
stats consequence on the fresh store. -/
theorem spec_C9_witness :
    StoreInv (do_POST initStore
      { path := "/", headers := [], contentLength := some 1,
        body := ParseOutcome.ok Json.null } 2).fst ∧
    ((statsOf initStore).has_data = true ↔ 0 < initStore.total_received) :=
  ⟨spec_C9_store_invariant.2.2.2.2.1 initStore
     { path := "/", headers := [], contentLength := some 1,
       body := ParseOutcome.ok Json.null } 2 (by decide),
   spec_C9_store_invariant.2.2.2.2.2 initStore (by decide)⟩

/-- C10: For every POST accepted through the handler, any of the six X-
forwarding headers that is absent from the request is stored as the empty
string: `do_POST` defaults every missing header to the empty string before
calling `add_reading`, so the `unknown` and `N/A` fallbacks inside
`add_reading` are never stored. -/
theorem spec_C10_missing_headers_stored_empty
    (s : SensorDataStore) (req : Request) (now : Nat) (d : Json)
    (hroute : req.path = "/" ∨ req.path = "/sensor-data")
    (hcl : req.contentLength.getD 0 ≠ 0)
    (hok : req.body = ParseOutcome.ok d) :
    (lookupHeader req.headers "X-Source-IP" = none →
      Option.map (fun ld => ld.metadata.source_ip)
        (do_POST s req now).fst.latest_data = some "") ∧
    (lookupHeader req.headers "X-Destination-IP" = none →
      Option.map (fun ld => ld.metadata.destination_ip)
        (do_POST s req now).fst.latest_data = some "") ∧
    (lookupHeader req.headers "X-Destination-Port" = none →
      Option.map (fun ld => ld.metadata.destination_port)
        (do_POST s req now).fst.latest_data = some "") ∧
    (lookupHeader req.headers "X-Protocol" = none →
      Option.map (fun ld => ld.metadata.protocol)
        (do_POST s req now).fst.latest_data = some "") ∧
    (lookupHeader req.headers "X-Timestamp" = none →
      Option.map (fun ld => ld.metadata.timestamp)
        (do_POST s req now).fst.latest_data = some "") ∧
    (lookupHeader req.headers "X-MQTT-Topic" = none →
      Option.map (fun ld => ld.metadata.mqtt_topic)
        (do_POST s req now).fst.latest_data = some "") := by
  have hr : (do_POST s req now).fst.latest_data
      = (s.add_reading d (extractHeaders req) now).latest_data := by
    cases ho : d.isObj <;>
      simp [do_POST, hroute, hcl, hok, ho, SensorDataStore.increment_errors]
  refine ⟨fun h => ?_, fun h => ?_, fun h => ?_, fun h => ?_, fun h => ?_, fun h => ?_⟩
  · have e : headersGet (extractHeaders req) "X-Source-IP" "unknown"
        = headersGet req.headers "X-Source-IP" "" := rfl
    simp [hr, SensorDataStore.add_reading, e, headersGet_of_lookup_none _ _ _ h]
  · have e : headersGet (extractHeaders req) "X-Destination-IP" "unknown"
        = headersGet req.headers "X-Destination-IP" "" := rfl
    simp [hr, SensorDataStore.add_reading, e, headersGet_of_lookup_none _ _ _ h]
  · have e : headersGet (extractHeaders req) "X-Destination-Port" "unknown"
        = headersGet req.headers "X-Destination-Port" "" := rfl
    simp [hr, SensorDataStore.add_reading, e, headersGet_of_lookup_none _ _ _ h]
  · have e : headersGet (extractHeaders req) "X-Protocol" "unknown"
        = headersGet req.headers "X-Protocol" "" := rfl
    simp [hr, SensorDataStore.add_reading, e, headersGet_of_lookup_none _ _ _ h]
  · have e : headersGet (extractHeaders req) "X-Timestamp" "unknown"
        = headersGet req.headers "X-Timestamp" "" := rfl
    simp [hr, SensorDataStore.add_reading, e, headersGet_of_lookup_none _ _ _ h]
  · have e : headersGet (extractHeaders req) "X-MQTT-Topic" "N/A"
        = headersGet req.headers "X-MQTT-Topic" "" := rfl
    simp [hr, SensorDataStore.add_reading, e, headersGet_of_lookup_none _ _ _ h]

/-- Witness for C10: an accepted POST with no headers at all stores the
empty string in every metadata field. -/
theorem spec_C10_witness :
    Option.map (fun ld => ld.metadata.source_ip)
      (do_POST initStore
        { path := "/sensor-data", headers := [], contentLength := some 4,
          body := ParseOutcome.ok (Json.num 1) } 8).fst.latest_data = some "" ∧
    Option.map (fun ld => ld.metadata.mqtt_topic)
      (do_POST initStore
        { path := "/sensor-data", headers := [], contentLength := some 4,
          body := ParseOutcome.ok (Json.num 1) } 8).fst.latest_data = some "" :=
  ⟨(spec_C10_missing_headers_stored_empty initStore
      { path := "/sensor-data", headers := [], contentLength := some 4,
        body := ParseOutcome.ok (Json.num 1) } 8 (Json.num 1)
      (Or.inr rfl) (by decide) rfl).1 rfl,
   (spec_C10_missing_headers_stored_empty initStore
      { path := "/sensor-data", headers := [], contentLength := some 4,
        body := ParseOutcome.ok (Json.num 1) } 8 (Json.num 1)
      (Or.inr rfl) (by decide) rfl).2.2.2.2.2 rfl⟩
